import Mathlib

/-!
Verification of the NL2SQL engine (`nl_to_sql.py`, class `NLToSQLEngine`).

The Python code is shallowly embedded: Python strings are Lean `String`
(a structure holding a `List Char`); the Python string methods used by the
code (`lower`, `strip`, `startswith`, `endswith`, `in`, slicing) are
re-implemented below over the character list, mirroring CPython's semantics
on the ASCII texts this program manipulates.  The two external effects —
the OpenAI chat-completion call and the sqlite/pandas query execution — are
modelled as oracle functions (`Backend`, `ExecOracle`) passed in as
parameters: an oracle returns either the external system's answer or the
`str(e)` of the exception it raised.
-/

/-- Whitespace as stripped by Python's `str.strip()` (the ASCII subset that
occurs in this program's texts). -/
def isSpace (c : Char) : Bool :=
  c == ' ' || c == '\t' || c == '\n' || c == '\r'

/-- Test `hasPrefixL p l` : the character list `p` is a prefix of `l`. -/
def hasPrefixL : List Char → List Char → Bool
  | [], _ => true
  | _ :: _, [] => false
  | p :: ps, c :: cs => p == c && hasPrefixL ps cs

/-- Test `hasInfixL p l` : the character list `p` occurs contiguously inside `l`
(Python's `p in l` on strings). -/
def hasInfixL (p : List Char) : List Char → Bool
  | [] => hasPrefixL p []
  | c :: cs => hasPrefixL p (c :: cs) || hasInfixL p cs

/-- Python `s.lower()` (ASCII case folding, as used on this program's texts). -/
def pylower (s : String) : String :=
  ⟨s.data.map Char.toLower⟩

/-- Python `s.strip()`: remove leading and trailing whitespace. -/
def pystrip (s : String) : String :=
  ⟨((s.data.dropWhile isSpace).reverse.dropWhile isSpace).reverse⟩

/-- Python `s.startswith(pre)`. -/
def startswith (s pre : String) : Bool :=
  hasPrefixL pre.data s.data

/-- Python `s.endswith(suf)`. -/
def endswith (s suf : String) : Bool :=
  hasPrefixL suf.data.reverse s.data.reverse

/-- Python `pat in s` (substring containment). -/
def pycontains (s pat : String) : Bool :=
  hasInfixL pat.data s.data

/-- Python `s[n:]`. -/
def pydrop (n : Nat) (s : String) : String :=
  ⟨s.data.drop n⟩

/-- Python `s[:-n]` (for `n ≤ len(s)`, the only way the code uses it). -/
def pydropRight (n : Nat) (s : String) : String :=
  ⟨s.data.take (s.data.length - n)⟩

/-- The denylist of `validate_sql_query`, in the order the Python list
literal `dangerous_keywords` declares it. -/
def dangerous_keywords : List String :=
  ["drop", "delete", "insert", "update", "alter"]

/-- The Python loop `for keyword in dangerous_keywords: if keyword in
query_lower: return ...` — the first list element contained in `q`. -/
def firstForbidden (q : String) : List String → Option String
  | [] => none
  | k :: ks => if pycontains q k then some k else firstForbidden q ks

/-- Embedding of `NLToSQLEngine.validate_sql_query` (nl_to_sql.py lines 149-164). -/
def validate_sql_query (sql_query : String) : Bool × String :=
  let query_lower := pystrip (pylower sql_query)
  if startswith query_lower "select" = false then
    (false, "Only SELECT queries are allowed")
  else
    match firstForbidden query_lower dangerous_keywords with
    | some keyword => (false, "Query contains forbidden keyword: " ++ keyword)
    | none => (true, "Query is valid")

/-- One entry of `schema_info[table]['columns']` (built from
`PRAGMA table_info`, nl_to_sql.py lines 36-44). -/
structure ColumnInfo where
  name : String
  type : String
  not_null : Bool
  primary_key : Bool
deriving DecidableEq

/-- One row of `PRAGMA foreign_key_list`, keeping the fields the code reads:
`fk[2]` (referenced table), `fk[3]` (source column), `fk[4]` (referenced
column). -/
structure ForeignKeyInfo where
  ref_table : String
  from_col : String
  to_col : String
deriving DecidableEq

/-- Entry `schema_info[table]`: columns, foreign keys and up to three sample rows.
A sample row is kept as the text Python's f-string prints for the fetched
tuple (`f"  Example: {row}"` renders the tuple's repr), which is the only
use the code makes of it. -/
structure TableInfo where
  columns : List ColumnInfo
  foreign_keys : List ForeignKeyInfo
  sample_data : List String
deriving DecidableEq

/-- Model of `self.schema_info`: an insertion-ordered dict from table name to
`TableInfo` (Python dicts preserve insertion order). -/
abbrev SchemaModel := List (String × TableInfo)

/-- The chat-completion backend: a prompt goes in; either the completion
text (`response.choices[0].message.content`) or the `str(e)` of the raised
exception comes back. -/
abbrev Backend := String → Except String String

/-- One result row as pandas materialises it. -/
abbrev Row := List String

/-- The pandas DataFrame returned by `pd.read_sql_query`, as its list of
rows (`len(df)` is the number of rows). -/
abbrev DataFrame := List Row

/-- The sqlite/pandas side of `execute_query`: for a SQL text, either the
DataFrame `pd.read_sql_query` produces or the `str(e)` of the exception it
raises. -/
abbrev ExecOracle := String → Except String DataFrame

/-- The `NLToSQLEngine` instance state set up by `__init__`: `db_path`,
the OpenAI `client`, and the `schema_info` built once by
`get_database_schema`. -/
structure Engine where
  db_path : String
  client : Backend
  schema_info : SchemaModel

/-- The per-column line of `create_schema_context` (line 70). -/
def columnLine (context : String) (col : ColumnInfo) : String :=
  let pk_indicator := if col.primary_key then " (PRIMARY KEY)" else ""
  let not_null_indicator := if col.not_null then " NOT NULL" else ""
  context ++ "  - " ++ col.name ++ " (" ++ col.type ++ ")"
    ++ pk_indicator ++ not_null_indicator ++ "\n"

/-- The per-table block of `create_schema_context` (lines 63-86). -/
def tableBlock (context : String) (t : String × TableInfo) : String :=
  let table_name := t.1
  let table_info := t.2
  let context := context ++ "Table: " ++ table_name ++ "\n" ++ "Columns:\n"
  let context := table_info.columns.foldl columnLine context
  let context :=
    if table_info.foreign_keys.isEmpty then context
    else
      table_info.foreign_keys.foldl
        (fun c fk => c ++ "  - " ++ fk.from_col ++ " -> " ++ fk.ref_table
          ++ "." ++ fk.to_col ++ "\n")
        (context ++ "Foreign Keys:\n")
  let context :=
    if table_info.sample_data.isEmpty then context
    else
      let column_names := table_info.columns.map (fun c => c.name)
      (table_info.sample_data.take 2).foldl
        (fun c row => c ++ "  Example: " ++ row ++ "\n")
        (context ++ "Sample data (first few rows):\n"
          ++ "  Columns: " ++ String.intercalate ", " column_names ++ "\n")
  context ++ "\n"

/-- Embedding of `NLToSQLEngine.create_schema_context` (nl_to_sql.py lines 59-88). -/
def create_schema_context (e : Engine) : String :=
  e.schema_info.foldl tableBlock "Database Schema:\n\n"

/-- The prompt f-string of `generate_sql_query` (lines 95-110). -/
def mkPrompt (schema_context natural_language_query : String) : String :=
  "\nYou are an expert SQL assistant. Convert the natural language query into a valid SQLite query.\n\n"
  ++ schema_context
  ++ "\n\nRules:\n1. Only generate SELECT queries (no INSERT, UPDATE, DELETE)\n2. Use proper SQL syntax for SQLite\n3. Include appropriate JOINs when querying multiple tables\n4. Use meaningful column aliases when needed\n5. If the query is ambiguous, make reasonable assumptions\n6. Return only the SQL query, no explanations\n\nNatural Language Query: \""
  ++ natural_language_query
  ++ "\"\n\nSQL Query:"

/-- The post-processing `generate_sql_query` applies to the backend's raw
completion text (lines 122-130): strip, remove a leading ```sql marker and
a trailing ``` marker when present, strip again. -/
def cleanResponse (content : String) : String :=
  let sql_query := pystrip content
  let sql_query :=
    if startswith sql_query "```sql" then pydrop 6 sql_query else sql_query
  let sql_query :=
    if endswith sql_query "```" then pydropRight 3 sql_query else sql_query
  pystrip sql_query

/-- Embedding of `NLToSQLEngine.generate_sql_query` (nl_to_sql.py lines 90-133): build
the prompt from the schema context and the question, call the backend,
post-process the completion; on a raised exception return the sentinel
string `"Error generating SQL: " + str(e)`. -/
def generate_sql_query (e : Engine) (natural_language_query : String) : String :=
  let schema_context := create_schema_context e
  let prompt := mkPrompt schema_context natural_language_query
  match e.client prompt with
  | Except.ok content => cleanResponse content
  | Except.error err => "Error generating SQL: " ++ err

/-- Connection events of `execute_query`, to state acquisition/release:
`sqlite3.connect(self.db_path)` acquires, `conn.close()` releases. -/
inductive DBEvent where
  | acquire (path : String)
  | release
deriving DecidableEq

/-- Embedding of `NLToSQLEngine.execute_query` (nl_to_sql.py lines 135-147), paired with
the trace of connection events its body performs.  The `try` block connects,
runs `pd.read_sql_query`, closes, and returns `(df, None)`; the `except`
block returns `(None, str(e))` — reached when `read_sql_query` raises, i.e.
after the connect but before the `conn.close()` line. -/
def execute_query (runQuery : ExecOracle) (e : Engine) (sql_query : String) :
    (Option DataFrame × Option String) × List DBEvent :=
  match runQuery sql_query with
  | Except.ok df => ((some df, none), [DBEvent.acquire e.db_path, DBEvent.release])
  | Except.error err => ((none, some err), [DBEvent.acquire e.db_path])

/-- The failure dictionary `process_natural_language_query` returns:
`{'success': False, 'error': ..., 'user_query': ..., ['sql_query': ...]}`;
`sql_query` is absent (`none`) exactly on the generation-failure return. -/
structure FailureDict where
  error : String
  user_query : String
  sql_query : Option String
deriving DecidableEq

/-- The value of `process_natural_language_query`: the success dict, a
failure dict, or an uncaught Python exception (`len(None)` raises
`TypeError` when `execute_query` reports an exception whose `str` is the
empty string, which the truthiness test `if error:` does not catch). -/
inductive PyResult where
  | success (user_query sql_query : String) (results : DataFrame) (row_count : Nat)
  | failure (d : FailureDict)
  | uncaught
deriving DecidableEq

/-- The three pipeline stages, for stating which stages a call invokes. -/
inductive Stage where
  | generation
  | validation
  | execution
deriving DecidableEq

/-- Python truthiness of the `error` slot (`if error:`): `None` and the
empty string are falsy. -/
def errTruthy : Option String → Bool
  | none => false
  | some s => s != ""

/-- Embedding of `NLToSQLEngine.process_natural_language_query` (nl_to_sql.py lines
166-216), paired with the trace of stages the call invokes in order:
generate; return the generation-failure dict if the result starts with
`"Error"`; validate; return the validation-failure dict (carrying the SQL)
on rejection; execute; return the execution-failure dict (carrying the SQL)
on a truthy error; otherwise the success dict with `row_count = len(df)`. -/
def process_natural_language_query (runQuery : ExecOracle) (e : Engine)
    (user_query : String) : PyResult × List Stage :=
  let sql_query := generate_sql_query e user_query
  if startswith sql_query "Error" then
    (PyResult.failure ⟨sql_query, user_query, none⟩, [Stage.generation])
  else
    let v := validate_sql_query sql_query
    if v.1 = false then
      (PyResult.failure ⟨v.2, user_query, some sql_query⟩,
       [Stage.generation, Stage.validation])
    else
      let r := (execute_query runQuery e sql_query).1
      if errTruthy r.2 then
        (PyResult.failure ⟨"SQL execution error: " ++ r.2.getD "", user_query,
          some sql_query⟩,
         [Stage.generation, Stage.validation, Stage.execution])
      else
        match r.1 with
        | some results_df =>
          (PyResult.success user_query sql_query results_df results_df.length,
           [Stage.generation, Stage.validation, Stage.execution])
        | none =>
          (PyResult.uncaught,
           [Stage.generation, Stage.validation, Stage.execution])

/-!
State-passing views of the five methods, for the frame property of
`self.schema_info`.  A Python method call `r = self.m(...)` is embedded as
a function from the receiver to the pair (result, receiver after the call);
none of the five method bodies assigns to any `self` field (the only write
to `self.schema_info` in the class is the one in `__init__`), so each body
returns its receiver unchanged.
-/

/-- Call `self.create_schema_context()` with its post-call receiver. -/
def create_schema_context_st (e : Engine) : String × Engine :=
  (create_schema_context e, e)

/-- Call `self.generate_sql_query(q)` with its post-call receiver (its body
reads `self.client` and calls `self.create_schema_context()`). -/
def generate_sql_query_st (e : Engine) (natural_language_query : String) :
    String × Engine :=
  let (schema_context, e1) := create_schema_context_st e
  let prompt := mkPrompt schema_context natural_language_query
  (match e1.client prompt with
   | Except.ok content => cleanResponse content
   | Except.error err => "Error generating SQL: " ++ err, e1)

/-- Call `self.validate_sql_query(sql)` with its post-call receiver (its body
reads no `self` field). -/
def validate_sql_query_st (e : Engine) (sql_query : String) :
    (Bool × String) × Engine :=
  (validate_sql_query sql_query, e)

/-- Call `self.execute_query(sql)` with its post-call receiver (its body reads
`self.db_path`). -/
def execute_query_st (runQuery : ExecOracle) (e : Engine) (sql_query : String) :
    ((Option DataFrame × Option String) × List DBEvent) × Engine :=
  (execute_query runQuery e sql_query, e)

/-- Call `self.process_natural_language_query(q)` with its post-call receiver,
threading the receiver through the three stage calls. -/
def process_natural_language_query_st (runQuery : ExecOracle) (e : Engine)
    (user_query : String) : PyResult × Engine :=
  let (sql_query, e1) := generate_sql_query_st e user_query
  if startswith sql_query "Error" then
    (PyResult.failure ⟨sql_query, user_query, none⟩, e1)
  else
    let (v, e2) := validate_sql_query_st e1 sql_query
    if v.1 = false then
      (PyResult.failure ⟨v.2, user_query, some sql_query⟩, e2)
    else
      let (rr, e3) := execute_query_st runQuery e2 sql_query
      let r := rr.1
      if errTruthy r.2 then
        (PyResult.failure ⟨"SQL execution error: " ++ r.2.getD "", user_query,
          some sql_query⟩, e3)
      else
        match r.1 with
        | some results_df =>
          (PyResult.success user_query sql_query results_df results_df.length, e3)
        | none => (PyResult.uncaught, e3)

/-!
Concrete fixtures used by witnesses and counterexamples: a small schema, a
few backends (each one ignores the prompt and plays back one fixed
behaviour of the OpenAI call), and a few execution oracles.
-/

/-- An empty schema model (a database with no user tables). -/
def sch0 : SchemaModel := []

/-- A backend whose call raises (`str(e) = "boom"`). -/
def backendRaise : Backend := fun _ => Except.error "boom"

/-- A backend that successfully returns a completion whose text happens to
start with the word `Error`. -/
def backendErrText : Backend := fun _ => Except.ok "Error generating SQL: boom"

/-- A backend that successfully returns a mutating statement. -/
def backendDropTable : Backend := fun _ => Except.ok "DROP TABLE customers"

/-- A backend that successfully returns a clean SELECT. -/
def backendSelect : Backend := fun _ => Except.ok "SELECT * FROM customers"

/-- A backend that wraps its SELECT in a bare markdown fence (no language
tag). -/
def backendBareFence : Backend := fun _ => Except.ok "```\nSELECT 1\n```"

/-- An execution oracle for which every query raises
(`str(e) = "no such table: customers"`). -/
def execRaise : ExecOracle := fun _ => Except.error "no such table: customers"

/-- An execution oracle for which every query returns an empty DataFrame. -/
def execEmpty : ExecOracle := fun _ => Except.ok []

/-- An execution oracle returning two rows for every query. -/
def execTwoRows : ExecOracle := fun _ =>
  Except.ok [["1", "John"], ["2", "Jane"]]

/-- An engine over the default database path. -/
def engOf (b : Backend) : Engine :=
  { db_path := "data/sample_business.db", client := b, schema_info := sch0 }

/-! Lemmas about the embedded string primitives. -/

theorem hasPrefixL_iff_append (p l : List Char) :
    hasPrefixL p l = true ↔ ∃ t, l = p ++ t := by
  induction p generalizing l with
  | nil =>
    constructor
    · intro _; exact ⟨l, rfl⟩
    · intro _; rfl
  | cons a ps ih =>
    cases l with
    | nil =>
      constructor
      · intro h; cases h
      · rintro ⟨t, ht⟩; cases ht
    | cons c cs =>
      simp only [hasPrefixL, Bool.and_eq_true, beq_iff_eq, ih]
      constructor
      · rintro ⟨rfl, t, rfl⟩; exact ⟨t, rfl⟩
      · rintro ⟨t, ht⟩
        injection ht with h1 h2
        exact ⟨h1.symm, t, h2⟩

theorem hasInfixL_iff_append (k l : List Char) :
    hasInfixL k l = true ↔ ∃ s t, l = s ++ (k ++ t) := by
  induction l with
  | nil =>
    cases k with
    | nil =>
      constructor
      · intro _; exact ⟨[], [], rfl⟩
      · intro _; rfl
    | cons a as =>
      constructor
      · intro h; cases h
      · rintro ⟨s, t, ht⟩
        rcases s with _ | ⟨x, xs⟩ <;> cases ht
  | cons c cs ih =>
    simp only [hasInfixL, Bool.or_eq_true, hasPrefixL_iff_append, ih]
    constructor
    · rintro (⟨t, ht⟩ | ⟨s, t, rfl⟩)
      · exact ⟨[], t, by simpa using ht⟩
      · exact ⟨c :: s, t, rfl⟩
    · rintro ⟨s, t, ht⟩
      cases s with
      | nil =>
        left
        refine ⟨t, ?_⟩
        simpa using ht
      | cons a as =>
        right
        injection ht with h1 h2
        exact ⟨as, t, h2⟩

theorem hasInfixL_reverse (k l : List Char) :
    hasInfixL k.reverse l.reverse = hasInfixL k l := by
  rw [Bool.eq_iff_iff, hasInfixL_iff_append, hasInfixL_iff_append]
  constructor
  · rintro ⟨s, t, h⟩
    refine ⟨t.reverse, s.reverse, ?_⟩
    have h2 := congrArg List.reverse h
    simpa [List.reverse_append, List.append_assoc] using h2
  · rintro ⟨s, t, rfl⟩
    exact ⟨t.reverse, s.reverse, by simp [List.reverse_append, List.append_assoc]⟩

theorem hasInfixL_dropWhile (c : Char) (ps l : List Char)
    (hc : isSpace c = false) :
    hasInfixL (c :: ps) (l.dropWhile isSpace) = hasInfixL (c :: ps) l := by
  induction l with
  | nil => rfl
  | cons a as ih =>
    by_cases ha : isSpace a = true
    · rw [List.dropWhile_cons_of_pos ha, ih]
      have hca : (c == a) = false := by
        apply beq_eq_false_iff_ne.mpr
        intro h
        rw [h, ha] at hc
        cases hc
      simp [hasInfixL, hasPrefixL, hca]
    · rw [List.dropWhile_cons_of_neg ha]

theorem pycontains_pystrip (q pat : String) (hne : pat.data ≠ [])
    (hw : ∀ c ∈ pat.data, isSpace c = false) :
    pycontains (pystrip q) pat = pycontains q pat := by
  obtain ⟨c, ps, hcp⟩ : ∃ c ps, pat.data = c :: ps := by
    cases h : pat.data with
    | nil => exact absurd h hne
    | cons c ps => exact ⟨c, ps, rfl⟩
  obtain ⟨d, ds, hrev, hd⟩ :
      ∃ d ds, pat.data.reverse = d :: ds ∧ isSpace d = false := by
    cases h : pat.data.reverse with
    | nil =>
      rw [List.reverse_eq_nil_iff] at h
      exact absurd h hne
    | cons d ds =>
      refine ⟨d, ds, rfl, hw d ?_⟩
      rw [← List.mem_reverse, h]
      exact List.mem_cons_self d ds
  have hc : isSpace c = false := hw c (by rw [hcp]; exact List.mem_cons_self c ps)
  show hasInfixL pat.data
      (((q.data.dropWhile isSpace).reverse.dropWhile isSpace).reverse)
    = hasInfixL pat.data q.data
  calc hasInfixL pat.data
        (((q.data.dropWhile isSpace).reverse.dropWhile isSpace).reverse)
      = hasInfixL pat.data.reverse.reverse
          (((q.data.dropWhile isSpace).reverse.dropWhile isSpace).reverse) := by
        rw [List.reverse_reverse]
    _ = hasInfixL pat.data.reverse
          ((q.data.dropWhile isSpace).reverse.dropWhile isSpace) :=
        hasInfixL_reverse _ _
    _ = hasInfixL (d :: ds)
          ((q.data.dropWhile isSpace).reverse.dropWhile isSpace) := by
        rw [hrev]
    _ = hasInfixL (d :: ds) (q.data.dropWhile isSpace).reverse :=
        hasInfixL_dropWhile d ds _ hd
    _ = hasInfixL pat.data.reverse (q.data.dropWhile isSpace).reverse := by
        rw [hrev]
    _ = hasInfixL pat.data (q.data.dropWhile isSpace) :=
        hasInfixL_reverse _ _
    _ = hasInfixL (c :: ps) (q.data.dropWhile isSpace) := by rw [hcp]
    _ = hasInfixL (c :: ps) q.data := hasInfixL_dropWhile c ps _ hc
    _ = hasInfixL pat.data q.data := by rw [hcp]

theorem firstForbidden_eq_none_iff (q : String) (l : List String) :
    firstForbidden q l = none ↔ ∀ k ∈ l, pycontains q k = false := by
  induction l with
  | nil => simp [firstForbidden]
  | cons a as ih =>
    by_cases ha : pycontains q a = true
    · simp only [firstForbidden, ha, if_true]
      constructor
      · intro h; cases h
      · intro hall
        have := hall a (List.mem_cons_self a as)
        rw [ha] at this
        cases this
    · have ha' : pycontains q a = false := by
        cases h : pycontains q a
        · rfl
        · exact absurd h ha
      simp only [firstForbidden, ha', if_false, Bool.false_eq_true, ih]
      constructor
      · intro hall k hk
        rcases List.mem_cons.mp hk with rfl | hk2
        · exact ha'
        · exact hall k hk2
      · intro hall k hk
        exact hall k (List.mem_cons_of_mem a hk)

theorem firstForbidden_eq_some (q : String) (l : List String) (k : String)
    (h : firstForbidden q l = some k) : k ∈ l ∧ pycontains q k = true := by
  induction l with
  | nil => cases h
  | cons a as ih =>
    by_cases ha : pycontains q a = true
    · rw [firstForbidden, if_pos ha] at h
      injection h with h1
      subst h1
      exact ⟨List.mem_cons_self a as, ha⟩
    · rw [firstForbidden, if_neg ha] at h
      obtain ⟨hm, hc⟩ := ih h
      exact ⟨List.mem_cons_of_mem a hm, hc⟩

/-- The denylist check is insensitive to the `strip()` the code performs
before it: each denylisted keyword is nonempty and whitespace-free, so it
occurs in the stripped lowered text iff it occurs in the lowered text. -/
theorem keyword_strip_bridge (s k : String) (hk : k ∈ dangerous_keywords) :
    pycontains (pystrip (pylower s)) k = pycontains (pylower s) k := by
  apply pycontains_pystrip
  · simp only [dangerous_keywords, List.mem_cons, List.not_mem_nil, or_false] at hk
    rcases hk with rfl | rfl | rfl | rfl | rfl <;> decide
  · simp only [dangerous_keywords, List.mem_cons, List.not_mem_nil, or_false] at hk
    rcases hk with rfl | rfl | rfl | rfl | rfl <;> decide

/-- Unfolding of `validate_sql_query` used by the validator claims. -/
theorem validate_sql_query_eq (s : String) :
    validate_sql_query s =
      if startswith (pystrip (pylower s)) "select" = false then
        (false, "Only SELECT queries are allowed")
      else
        match firstForbidden (pystrip (pylower s)) dangerous_keywords with
        | some keyword => (false, "Query contains forbidden keyword: " ++ keyword)
        | none => (true, "Query is valid") := rfl

/-- Claim C1: for every SQL string `s`, validation rejects with message
"Only SELECT queries are allowed" whenever the lowercased, trimmed `s` does
not start with "select"; any string whose lowercased form contains a
denylisted keyword anywhere is rejected, and when such a string does start
with "select" the rejection message names a denylisted keyword it contains;
every other string is accepted with "Query is valid". -/
theorem claim_C1 (s : String) :
    (startswith (pystrip (pylower s)) "select" = false →
      validate_sql_query s = (false, "Only SELECT queries are allowed")) ∧
    ((∃ k ∈ dangerous_keywords, pycontains (pylower s) k = true) →
      (validate_sql_query s).1 = false) ∧
    (startswith (pystrip (pylower s)) "select" = true →
      (∃ k ∈ dangerous_keywords, pycontains (pylower s) k = true) →
      ∃ k ∈ dangerous_keywords, pycontains (pylower s) k = true ∧
        validate_sql_query s = (false, "Query contains forbidden keyword: " ++ k)) ∧
    (startswith (pystrip (pylower s)) "select" = true →
      (∀ k ∈ dangerous_keywords, pycontains (pylower s) k = false) →
      validate_sql_query s = (true, "Query is valid")) := by
  refine ⟨?_, ?_, ?_, ?_⟩
  · intro h
    rw [validate_sql_query_eq, h]
    rfl
  · rintro ⟨k, hk, hc⟩
    by_cases hs : startswith (pystrip (pylower s)) "select" = false
    · rw [validate_sql_query_eq, hs]
      rfl
    · have hs' : startswith (pystrip (pylower s)) "select" = true := by
        cases h : startswith (pystrip (pylower s)) "select"
        · exact absurd h hs
        · rfl
      have hc' : pycontains (pystrip (pylower s)) k = true := by
        rw [keyword_strip_bridge s k hk]
        exact hc
      rw [validate_sql_query_eq, hs']
      cases hf : firstForbidden (pystrip (pylower s)) dangerous_keywords with
      | none =>
        have := (firstForbidden_eq_none_iff _ _).mp hf k hk
        rw [hc'] at this
        cases this
      | some k2 => rfl
  · intro hs hex
    rcases hex with ⟨k, hk, hc⟩
    have hc' : pycontains (pystrip (pylower s)) k = true := by
      rw [keyword_strip_bridge s k hk]
      exact hc
    cases hf : firstForbidden (pystrip (pylower s)) dangerous_keywords with
    | none =>
      have := (firstForbidden_eq_none_iff _ _).mp hf k hk
      rw [hc'] at this
      cases this
    | some k2 =>
      obtain ⟨hk2, hc2⟩ := firstForbidden_eq_some _ _ _ hf
      refine ⟨k2, hk2, ?_, ?_⟩
      · rw [← keyword_strip_bridge s k2 hk2]
        exact hc2
      · rw [validate_sql_query_eq, hs, hf]
        rfl
  · intro hs hall
    have hall' : ∀ k ∈ dangerous_keywords,
        pycontains (pystrip (pylower s)) k = false := by
      intro k hk
      rw [keyword_strip_bridge s k hk]
      exact hall k hk
    rw [validate_sql_query_eq, hs, (firstForbidden_eq_none_iff _ _).mpr hall']
    rfl

/-- Witness for C1: a non-SELECT is rejected with the fixed message, and a
clean SELECT is accepted. -/
theorem claim_C1_witness :
    validate_sql_query "DROP TABLE customers"
        = (false, "Only SELECT queries are allowed") ∧
      validate_sql_query "select name from products where price > 100"
        = (true, "Query is valid") :=
  ⟨(claim_C1 "DROP TABLE customers").1 (by decide),
   (claim_C1 "select name from products where price > 100").2.2.2
     (by decide) (by decide)⟩

/-- Claim C10: when a query that passes the SELECT check contains the
keyword "drop" — in particular when it also contains "update", even earlier
in the text — the rejection message names "drop", the keyword that comes
first in the fixed list order, not the keyword occurring earliest in the
query text. -/
theorem claim_C10 (s : String)
    (hsel : startswith (pystrip (pylower s)) "select" = true)
    (_hupd : pycontains (pylower s) "update" = true)
    (hdrop : pycontains (pylower s) "drop" = true) :
    validate_sql_query s = (false, "Query contains forbidden keyword: drop") := by
  have hdrop' : pycontains (pystrip (pylower s)) "drop" = true := by
    rw [keyword_strip_bridge s "drop" (by decide)]
    exact hdrop
  rw [validate_sql_query_eq, hsel]
  simp only [dangerous_keywords, firstForbidden, hdrop', if_true]
  rfl

/-- Witness for C10: "update" occurs before "drop" in the text, yet the
message names "drop". -/
theorem claim_C10_witness :
    validate_sql_query "select update_col drop_col"
      = (false, "Query contains forbidden keyword: drop") :=
  claim_C10 "select update_col drop_col" (by decide) (by decide) (by decide)

/-- The sentinel string built on a backend exception starts with "Error". -/
theorem errorSentinelStarts (msg : String) :
    startswith ("Error generating SQL: " ++ msg) "Error" = true := rfl

/-- A string starting with "Error" is nonempty. -/
theorem startswith_error_pos (s : String) (h : startswith s "Error" = true) :
    0 < s.data.length := by
  cases hd : s.data with
  | nil =>
    rw [startswith, hd] at h
    exact absurd h (by decide)
  | cons c cs => simp [hd]

/-- On a backend exception, `generate_sql_query` returns the sentinel. -/
theorem generate_sql_query_of_error (e : Engine) (uq msg : String)
    (h : e.client (mkPrompt (create_schema_context e) uq) = Except.error msg) :
    generate_sql_query e uq = "Error generating SQL: " ++ msg := by
  have hg : generate_sql_query e uq =
      match e.client (mkPrompt (create_schema_context e) uq) with
      | Except.ok content => cleanResponse content
      | Except.error err => "Error generating SQL: " ++ err := rfl
  rw [hg, h]

/-- The stage trace of a call is one of the three prefixes of
generation → validation → execution. -/
theorem process_trace_cases (runQuery : ExecOracle) (e : Engine) (uq : String) :
    (process_natural_language_query runQuery e uq).2 = [Stage.generation] ∨
    (process_natural_language_query runQuery e uq).2
        = [Stage.generation, Stage.validation] ∨
    (process_natural_language_query runQuery e uq).2
        = [Stage.generation, Stage.validation, Stage.execution] := by
  unfold process_natural_language_query
  by_cases h1 : startswith (generate_sql_query e uq) "Error" = true
  · simp [h1]
  · by_cases h2 : (validate_sql_query (generate_sql_query e uq)).1 = false
    · simp [h1, h2]
    · by_cases h3 :
        errTruthy ((execute_query runQuery e (generate_sql_query e uq)).1).2 = true
      · simp [h1, h2, h3]
      · cases h4 : ((execute_query runQuery e (generate_sql_query e uq)).1).1 with
        | none => simp [h1, h2, h3, h4]
        | some df => simp [h1, h2, h3, h4]

/-- Claim C2: stages never run after a failure.  Within one call, each
stage is invoked at most once (generation exactly once); a backend failure
leaves the trace at generation only, so neither the validator nor the
executor runs; a validation rejection keeps the executor out of the trace. -/
theorem claim_C2 (runQuery : ExecOracle) (e : Engine) (uq : String) :
    ((process_natural_language_query runQuery e uq).2.count Stage.generation = 1 ∧
      (process_natural_language_query runQuery e uq).2.count Stage.validation ≤ 1 ∧
      (process_natural_language_query runQuery e uq).2.count Stage.execution ≤ 1) ∧
    (∀ msg, e.client (mkPrompt (create_schema_context e) uq) = Except.error msg →
      (process_natural_language_query runQuery e uq).2 = [Stage.generation]) ∧
    ((validate_sql_query (generate_sql_query e uq)).1 = false →
      Stage.execution ∉ (process_natural_language_query runQuery e uq).2) := by
  refine ⟨?_, ?_, ?_⟩
  · rcases process_trace_cases runQuery e uq with h | h | h <;>
      rw [h] <;> exact ⟨by decide, by decide, by decide⟩
  · intro msg hmsg
    have hsql := generate_sql_query_of_error e uq msg hmsg
    unfold process_natural_language_query
    rw [hsql]
    simp [errorSentinelStarts]
  · intro hv
    unfold process_natural_language_query
    by_cases h1 : startswith (generate_sql_query e uq) "Error" = true
    · simp [h1]
    · simp [h1, hv]

/-- Witness for C2: with a raising backend the call's trace is generation
alone. -/
theorem claim_C2_witness :
    (process_natural_language_query execEmpty (engOf backendRaise) "q").2
      = [Stage.generation] :=
  (claim_C2 execEmpty (engOf backendRaise) "q").2.1 "boom" rfl

/-- Zeta-reduced unfolding of `process_natural_language_query`. -/
theorem process_eq (runQuery : ExecOracle) (e : Engine) (uq : String) :
    process_natural_language_query runQuery e uq =
      if startswith (generate_sql_query e uq) "Error" then
        (PyResult.failure ⟨generate_sql_query e uq, uq, none⟩, [Stage.generation])
      else if (validate_sql_query (generate_sql_query e uq)).1 = false then
        (PyResult.failure ⟨(validate_sql_query (generate_sql_query e uq)).2, uq,
          some (generate_sql_query e uq)⟩,
         [Stage.generation, Stage.validation])
      else if errTruthy ((execute_query runQuery e (generate_sql_query e uq)).1).2 then
        (PyResult.failure ⟨"SQL execution error: "
            ++ ((execute_query runQuery e (generate_sql_query e uq)).1).2.getD "",
          uq, some (generate_sql_query e uq)⟩,
         [Stage.generation, Stage.validation, Stage.execution])
      else
        match ((execute_query runQuery e (generate_sql_query e uq)).1).1 with
        | some results_df =>
          (PyResult.success uq (generate_sql_query e uq) results_df
            results_df.length,
           [Stage.generation, Stage.validation, Stage.execution])
        | none =>
          (PyResult.uncaught,
           [Stage.generation, Stage.validation, Stage.execution]) := rfl

/-- String concatenation concatenates the character lists. -/
theorem data_append (a b : String) : (a ++ b).data = a.data ++ b.data := rfl

/-- Claim C8: a generated SQL that passes validation and whose execution
returns a DataFrame yields a success outcome whose `row_count` is the
number of rows of that DataFrame (zero rows included). -/
theorem claim_C8 (runQuery : ExecOracle) (e : Engine) (uq : String)
    (df : DataFrame)
    (h1 : startswith (generate_sql_query e uq) "Error" = false)
    (h2 : (validate_sql_query (generate_sql_query e uq)).1 = true)
    (h3 : runQuery (generate_sql_query e uq) = Except.ok df) :
    (process_natural_language_query runQuery e uq).1
      = PyResult.success uq (generate_sql_query e uq) df df.length := by
  have hex : execute_query runQuery e (generate_sql_query e uq)
      = ((some df, none),
         [DBEvent.acquire e.db_path, DBEvent.release]) := by
    unfold execute_query
    rw [h3]
  rw [process_eq, hex]
  simp [h1, h2, errTruthy]

/-- Witness for C8: a zero-row result is a success outcome with
`row_count = 0`. -/
theorem claim_C8_witness :
    (process_natural_language_query execEmpty (engOf backendSelect) "q").1
      = PyResult.success "q" "SELECT * FROM customers" [] 0 :=
  claim_C8 execEmpty (engOf backendSelect) "q" []
    (by decide) (by decide) rfl

/-- The message `validate_sql_query` returns is never empty. -/
theorem validate_msg_pos (s : String) :
    0 < (validate_sql_query s).2.data.length := by
  rw [validate_sql_query_eq]
  by_cases h : startswith (pystrip (pylower s)) "select" = false
  · rw [if_pos h]
    decide
  · rw [if_neg h]
    cases hf : firstForbidden (pystrip (pylower s)) dangerous_keywords with
    | none => decide
    | some k =>
      show 0 < ("Query contains forbidden keyword: " ++ k).data.length
      rw [data_append, List.length_append]
      have : 0 < ("Query contains forbidden keyword: " : String).data.length := by
        decide
      omega

/-- Claim C7: every failure outcome of a call carries a nonempty error
message; it carries no SQL text exactly when the generated string was the
"Error" sentinel (a generation failure), and any SQL text it carries is
exactly the generated string — the one that was validated and executed. -/
theorem claim_C7 (runQuery : ExecOracle) (e : Engine) (uq : String)
    (d : FailureDict)
    (h : (process_natural_language_query runQuery e uq).1 = PyResult.failure d) :
    0 < d.error.data.length ∧
    (d.sql_query = none ↔ startswith (generate_sql_query e uq) "Error" = true) ∧
    (∀ s2, d.sql_query = some s2 → s2 = generate_sql_query e uq) := by
  rw [process_eq] at h
  by_cases h1 : startswith (generate_sql_query e uq) "Error" = true
  · rw [if_pos h1] at h
    injection h with h
    subst h
    refine ⟨startswith_error_pos _ h1, by simp [h1], ?_⟩
    intro s2 hs2
    cases hs2
  · rw [if_neg h1] at h
    have h1' : startswith (generate_sql_query e uq) "Error" = false := by
      cases hb : startswith (generate_sql_query e uq) "Error"
      · rfl
      · exact absurd hb h1
    by_cases h2 : (validate_sql_query (generate_sql_query e uq)).1 = false
    · rw [if_pos h2] at h
      injection h with h
      subst h
      refine ⟨validate_msg_pos _, by simp [h1'], ?_⟩
      intro s2 hs2
      injection hs2 with hs2
      exact hs2.symm
    · rw [if_neg h2] at h
      by_cases h3 :
          errTruthy ((execute_query runQuery e (generate_sql_query e uq)).1).2 = true
      · rw [if_pos h3] at h
        injection h with h
        subst h
        refine ⟨?_, by simp [h1'], ?_⟩
        · show 0 < ("SQL execution error: "
              ++ ((execute_query runQuery e (generate_sql_query e uq)).1).2.getD
                "").data.length
          rw [data_append, List.length_append]
          have : 0 < ("SQL execution error: " : String).data.length := by decide
          omega
        · intro s2 hs2
          injection hs2 with hs2
          exact hs2.symm
      · rw [if_neg h3] at h
        cases h4 : ((execute_query runQuery e (generate_sql_query e uq)).1).1 with
        | some df =>
          rw [h4] at h
          cases h
        | none =>
          rw [h4] at h
          cases h

/-- Witness for C7: a validation failure carries the rejected SQL text and
a nonempty message. -/
theorem claim_C7_witness :
    0 < ("Only SELECT queries are allowed" : String).data.length ∧
    ((some "DROP TABLE customers" : Option String) = none ↔
      startswith (generate_sql_query (engOf backendDropTable) "q") "Error" = true) ∧
    (∀ s2, (some "DROP TABLE customers" : Option String) = some s2 →
      s2 = generate_sql_query (engOf backendDropTable) "q") :=
  claim_C7 execEmpty (engOf backendDropTable) "q"
    ⟨"Only SELECT queries are allowed", "q", some "DROP TABLE customers"⟩
    (by decide)

/-- Counterexample for C4: a raising backend and a succeeding backend whose
completion text starts with "Error" give byte-identical outcomes — the
backend success is classified as a generation failure (no `sql_query`
field), indistinguishable from the backend error. -/
theorem claim_C4_counterexample :
    backendRaise (mkPrompt (create_schema_context (engOf backendRaise)) "q")
        = Except.error "boom" ∧
      backendErrText (mkPrompt (create_schema_context (engOf backendErrText)) "q")
        = Except.ok "Error generating SQL: boom" ∧
      (process_natural_language_query execEmpty (engOf backendRaise) "q").1
        = (process_natural_language_query execEmpty (engOf backendErrText) "q").1 ∧
      (process_natural_language_query execEmpty (engOf backendErrText) "q").1
        = PyResult.failure ⟨"Error generating SQL: boom", "q", none⟩ := by
  refine ⟨rfl, rfl, ?_, ?_⟩ <;> decide

/-- Claim C4 (amended): a backend error always yields the generation-failure
outcome (no `sql_query` field), never a validation rejection; a synthesized
SQL not starting with "Error" is never classified as a generation failure
(its failure outcomes carry the SQL); but a synthesized SQL starting with
"Error" is classified as a generation failure. -/
theorem claim_C4 (runQuery : ExecOracle) (e : Engine) (uq : String) :
    (∀ msg, e.client (mkPrompt (create_schema_context e) uq) = Except.error msg →
      (process_natural_language_query runQuery e uq).1
        = PyResult.failure ⟨"Error generating SQL: " ++ msg, uq, none⟩) ∧
    (startswith (generate_sql_query e uq) "Error" = false →
      ∀ d, (process_natural_language_query runQuery e uq).1 = PyResult.failure d →
        d.sql_query = some (generate_sql_query e uq)) ∧
    (startswith (generate_sql_query e uq) "Error" = true →
      (process_natural_language_query runQuery e uq).1
        = PyResult.failure ⟨generate_sql_query e uq, uq, none⟩) := by
  refine ⟨?_, ?_, ?_⟩
  · intro msg hmsg
    have hsql := generate_sql_query_of_error e uq msg hmsg
    rw [process_eq, hsql, if_pos (errorSentinelStarts msg)]
  · intro h1 d hd
    obtain ⟨-, hiff, hsome⟩ := claim_C7 runQuery e uq d hd
    cases hq : d.sql_query with
    | none =>
      rw [hiff.mp hq] at h1
      cases h1
    | some s2 =>
      rw [hsome s2 hq]
  · intro h1
    rw [process_eq, if_pos h1]

/-- Witness for C4 (amended): the backend-error conjunct at a concrete
raising backend. -/
theorem claim_C4_witness :
    (process_natural_language_query execEmpty (engOf backendRaise) "q").1
      = PyResult.failure ⟨"Error generating SQL: boom", "q", none⟩ :=
  (claim_C4 execEmpty (engOf backendRaise) "q").1 "boom" rfl

/-- Counterexample for C5: the backend wraps the SQL in a markdown code
block whose opening fence has no language tag; the post-processing leaves
the leading fence marker in place. -/
theorem claim_C5_counterexample :
    backendBareFence (mkPrompt (create_schema_context (engOf backendBareFence)) "q")
        = Except.ok "```\nSELECT 1\n```" ∧
      generate_sql_query (engOf backendBareFence) "q" = "```\nSELECT 1" ∧
      startswith (generate_sql_query (engOf backendBareFence) "q") "```" = true := by
  refine ⟨rfl, ?_, ?_⟩ <;> decide

/-- Claim C5 (amended): the post-processing trims surrounding whitespace,
strips the leading fence marker only when the trimmed text starts with the
language-tagged marker ```sql (dropping those six characters), and strips a
trailing ``` marker; so it handles no fences, an only-opening ```sql fence,
and a tagged opening fence with closing fence, while a bare untagged ```
opening fence is left in place. -/
theorem claim_C5 :
    cleanResponse "  SELECT 1  " = "SELECT 1" ∧
    cleanResponse "```sql\nSELECT 1\n```" = "SELECT 1" ∧
    cleanResponse "```sql\nSELECT 1" = "SELECT 1" ∧
    cleanResponse "```\nSELECT 1\n```" = "```\nSELECT 1" := by
  refine ⟨?_, ?_, ?_, ?_⟩ <;> decide

/-- Claim C3, as the code actually behaves: on the success path the
connection acquired by `sqlite3.connect` is released by `conn.close()`, but
on the error path (`pd.read_sql_query` raises) the `except` branch returns
without any release — the trace of a failing call contains the acquire and
no release. -/
theorem claim_C3 :
    (execute_query execRaise (engOf backendSelect) "SELECT * FROM missing").2
        = [DBEvent.acquire "data/sample_business.db"] ∧
      DBEvent.release ∉
        (execute_query execRaise (engOf backendSelect) "SELECT * FROM missing").2 ∧
      (execute_query execEmpty (engOf backendSelect) "SELECT 1").2
        = [DBEvent.acquire "data/sample_business.db", DBEvent.release] := by
  refine ⟨rfl, ?_, rfl⟩
  decide

/-- A concrete table for the formatter fixtures. -/
def customersTable : TableInfo :=
  { columns :=
      [⟨"id", "INTEGER", false, true⟩, ⟨"name", "TEXT", true, false⟩],
    foreign_keys := [],
    sample_data := ["(1, 'John')", "(2, 'Jane')", "(3, 'Bob')"] }

/-- A one-table schema model. -/
def sch1 : SchemaModel := [("customers", customersTable)]

/-- An engine over `sch1` at the default path with a raising backend. -/
def engA : Engine :=
  { db_path := "data/sample_business.db", client := backendRaise,
    schema_info := sch1 }

/-- An engine over the same `sch1` at a different path with a different
backend. -/
def engB : Engine :=
  { db_path := "other/copy.db", client := backendSelect, schema_info := sch1 }

/-- Claim C6: the schema context is a pure function of `schema_info` —
engines holding equal `schema_info` produce byte-identical context text,
whatever their other state. -/
theorem claim_C6 (e1 e2 : Engine) (h : e1.schema_info = e2.schema_info) :
    create_schema_context e1 = create_schema_context e2 := by
  unfold create_schema_context
  rw [h]

/-- Witness for C6: two engines differing in `db_path` and `client` but
holding the same `schema_info` format identically. -/
theorem claim_C6_witness :
    create_schema_context engA = create_schema_context engB :=
  claim_C6 engA engB rfl

/-- The orchestration call hands back its receiver unchanged. -/
theorem process_st_engine (runQuery : ExecOracle) (e : Engine) (uq : String) :
    (process_natural_language_query_st runQuery e uq).2 = e := by
  have hg : generate_sql_query_st e uq = (generate_sql_query e uq, e) := rfl
  unfold process_natural_language_query_st
  rw [hg]
  dsimp only [validate_sql_query_st, execute_query_st]
  split
  · rfl
  · split
    · rfl
    · split
      · rfl
      · split <;> rfl

/-- Claim C9: `schema_info` is built once at construction and never
modified: each of the five methods leaves the engine's `schema_info`
identical before and after the call. -/
theorem claim_C9 (runQuery : ExecOracle) (e : Engine) (sql uq : String) :
    (create_schema_context_st e).2.schema_info = e.schema_info ∧
    (generate_sql_query_st e uq).2.schema_info = e.schema_info ∧
    (validate_sql_query_st e sql).2.schema_info = e.schema_info ∧
    (execute_query_st runQuery e sql).2.schema_info = e.schema_info ∧
    (process_natural_language_query_st runQuery e uq).2.schema_info
      = e.schema_info := by
  refine ⟨rfl, rfl, rfl, rfl, ?_⟩
  rw [process_st_engine]
